import Mathlib

/-!
# multithreading-fc: postal-code lookup racing two upstream providers

A shallow embedding of `main.go` (the HTTP handler `getCepHandler` and the two
adapters `getCepByApiCep`, `getCepByViaCep`) together with the properties of
its input validation, normalisation, arbitration and record mapping.

Modelling conventions
* A Go `string` is a sequence of bytes: `GoString := List Nat`.  `len` is
  `List.length`, `s[:5]` is `List.take 5`, `s[5:]` is `List.drop 5` and `+` is
  `++`.
* The regular expression of line 54 only mentions ASCII bytes.  An ASCII byte is
  always a complete rune of a Go string, so matching it byte by byte agrees with
  the rune-wise matching of package `regexp`.
* Package `net/http`, `io/ioutil` and `encoding/json` are not part of the
  repository; what the adapters obtain from them is a parameter (`Upstream`).
* The order in which the goroutines and the timer get ahead is an explicit input.
* No panic is recovered anywhere, so a panic in the goroutine of an adapter terminates
  the process.
-/

namespace CepRace

/-! ## Strings -/

/-- A Go string: its bytes. -/
abbrev GoString := List Nat

/-- The bytes of an ASCII literal of the source. -/
def ascii (s : String) : GoString := s.toList.map Char.toNat

/-! ## Data model (lines 12-35) -/

/-- Struct `ViaCEP` (lines 12-18); JSON tags cep, logradouro, bairro, localidade, uf. -/
structure ViaCEP where
  Cep : GoString
  Logradouro : GoString
  Bairro : GoString
  Localidade : GoString
  Uf : GoString
deriving DecidableEq

/-- Struct `ApiCEP` (lines 20-26); JSON tags code, address, district, city, state. -/
structure ApiCEP where
  Cep : GoString
  Logradouro : GoString
  Bairro : GoString
  Localidade : GoString
  Uf : GoString
deriving DecidableEq

/-- Struct `CepData` (lines 28-35). -/
structure CepData where
  Cep : GoString
  Logradouro : GoString
  Bairro : GoString
  Localidade : GoString
  Uf : GoString
  Api : GoString
deriving DecidableEq

/-! ## The regular expression of line 54 -/

/-- The fragment of regular-expression syntax used by line 54. -/
inductive Re where
  /-- A class `[lo-hi]` of bytes. -/
  | cls (lo hi : Nat)
  /-- A literal byte. -/
  | lit (c : Nat)
  /-- The optional `r?`. -/
  | opt (r : Re)
  /-- The counted repetition `r{n}`. -/
  | rep (r : Re) (n : Nat)
  /-- The concatenation `r q`. -/
  | cat (r q : Re)
deriving DecidableEq

/-- Iterate a prefix matcher `n` times, threading the remainders. -/
def iter (f : GoString → List GoString) : Nat → GoString → List GoString
  | 0, s => [s]
  | n + 1, s => (f s).flatMap (iter f n)

/-- All the ways `r` matches a prefix of the input: the list of what is left of the
input after each of them. -/
def Re.run : Re → GoString → List GoString
  | .cls lo hi => fun s =>
      match s with
      | c :: t => if lo ≤ c ∧ c ≤ hi then [t] else []
      | [] => []
  | .lit c => fun s =>
      match s with
      | d :: t => if d = c then [t] else []
      | [] => []
  | .opt r => fun s => r.run s ++ [s]
  | .rep r n => iter r.run n
  | .cat r q => fun s => (r.run s).flatMap q.run

/-- Method `(*Regexp).MatchString`: whether the string contains any match of the
expression, i.e. whether the expression matches a prefix of some suffix. -/
def Re.MatchString (r : Re) (s : GoString) : Bool :=
  s.tails.any fun u => !(r.run u).isEmpty

/-- A full match: the expression matches the whole string.  This is what the same
expression between `^` and `$` accepts. -/
def Re.fullMatch (r : Re) (s : GoString) : Bool :=
  (r.run s).any fun u => u.isEmpty

/-- The byte class `[0-9]`. -/
def digit : Re := .cls 48 57

/-- The expression compiled at line 54: `[0-9]{5}-?[0-9]{3}`. -/
def cepRegexp : Re := .cat (.rep digit 5) (.cat (.opt (.lit 45)) (.rep digit 3))

/-- Whether a byte is a decimal digit. -/
def isDigit (c : Nat) : Bool := decide (48 ≤ c ∧ c ≤ 57)

/-- The canonical shape: exactly nine bytes, five digits, a hyphen, three digits. -/
def canonical (s : GoString) : Bool :=
  match s with
  | [a, b, c, d, e, h, x, y, z] =>
      isDigit a && isDigit b && isDigit c && isDigit d && isDigit e &&
        decide (h = 45) && isDigit x && isDigit y && isDigit z
  | _ => false

/-! ## The handler up to the dispatch (lines 42-69) -/

/-- What the handler reads of a request: the URL path and `r.URL.Query().Get("cep")`,
which is the empty string when the parameter is absent. -/
structure Request where
  path : GoString
  cep : GoString
deriving DecidableEq

/-- The response written by the handler: the status code, whether the
`Content-Type: application/json` header was set, and the record encoded in the body. -/
structure Response where
  status : Nat
  json : Bool
  body : Option CepData
deriving DecidableEq

/-- Constant `http.StatusOK`. -/
def StatusOK : Nat := 200
/-- Constant `http.StatusBadRequest`. -/
def StatusBadRequest : Nat := 400
/-- Constant `http.StatusNotFound`. -/
def StatusNotFound : Nat := 404
/-- Constant `http.StatusGatewayTimeout`. -/
def StatusGatewayTimeout : Nat := 504

/-- How lines 44-61 of `getCepHandler` end. -/
inductive Prepared where
  /-- An early return after `w.WriteHeader(status)`; nothing has been started. -/
  | reject (status : Nat)
  /-- Control reaches line 63 with this value of `cepParam`. -/
  | start (cepParam : GoString)
deriving DecidableEq

/-- Lines 44-61 of `getCepHandler`: either an early return with a bare status, or
the value of `cepParam` with which lines 68-69 start the two adapters. -/
def prepare (r : Request) : Prepared :=
  if r.path ≠ ascii "/" then .reject StatusNotFound
  else
    let cepParam := r.cep
    if cepParam = ascii "" then .reject StatusBadRequest
    else if !cepRegexp.MatchString cepParam then .reject StatusBadRequest
    else if cepParam.length = 8 then .start (cepParam.take 5 ++ ascii "-" ++ cepParam.drop 5)
    else .start cepParam

/-- The arguments of the two `go` statements of lines 68-69, in source order
(`getCepByApiCep` first, `getCepByViaCep` second); `none` when the handler returns
before reaching them. -/
def dispatched (r : Request) : Option (GoString × GoString) :=
  match prepare r with
  | .start cepParam => some (cepParam, cepParam)
  | .reject _ => none

/-! ## The adapters (lines 105-165) -/

/-- What `ioutil.ReadAll(resp.Body)` returns for a response: the bytes read and
whether the error is non-nil. -/
structure HttpResponse where
  body : GoString
  readErr : Bool
deriving DecidableEq

/-- What the adapters obtain from the packages outside the repository. -/
structure Upstream where
  /-- Function `http.Get` at a URL: the response pointer (`none` is the nil pointer
  of a failed call) and whether the error is non-nil. -/
  get : GoString → Option HttpResponse × Bool
  /-- The string `json.Unmarshal body` leaves in the string field carrying the given
  JSON tag of a zero-valued struct (the empty string when it stores nothing). -/
  field : GoString → GoString → GoString
  /-- Whether `json.Unmarshal body` returns a non-nil error. -/
  unmarshalErr : GoString → Bool

/-- How the goroutine of an adapter proceeds. -/
inductive Task where
  /-- A run-time panic (nil pointer dereference). -/
  | panicked
  /-- The goroutine reaches its single channel send with this record. -/
  | send (v : CepData)
deriving DecidableEq

/-- Call `json.Unmarshal(body, &cep)` with `cep` a zero-valued `ViaCEP` (lines 120-121):
the struct afterwards and whether the error is non-nil. -/
def unmarshalViaCEP (u : Upstream) (body : GoString) : ViaCEP × Bool :=
  ({ Cep := u.field body (ascii "cep")
     Logradouro := u.field body (ascii "logradouro")
     Bairro := u.field body (ascii "bairro")
     Localidade := u.field body (ascii "localidade")
     Uf := u.field body (ascii "uf") }, u.unmarshalErr body)

/-- Call `json.Unmarshal(body, &cep)` with `cep` a zero-valued `ApiCEP` (lines 151-152):
the struct afterwards and whether the error is non-nil. -/
def unmarshalApiCEP (u : Upstream) (body : GoString) : ApiCEP × Bool :=
  ({ Cep := u.field body (ascii "code")
     Logradouro := u.field body (ascii "address")
     Bairro := u.field body (ascii "district")
     Localidade := u.field body (ascii "city")
     Uf := u.field body (ascii "state") }, u.unmarshalErr body)

/-- Function `getCepByViaCep` (lines 105-134).  The three errors are wrapped and
dropped; `defer resp.Body.Close()` at line 115 evaluates `resp.Body`, which panics
when `resp` is nil. -/
def getCepByViaCep (u : Upstream) (cepParam : GoString) : Task :=
  match u.get (ascii "https://viacep.com.br/ws/" ++ cepParam ++ ascii "/json/") with
  | (none, _error) => .panicked
  | (some resp, _error) =>
      let (body, _error) := (resp.body, resp.readErr)
      let (cep, _error) := unmarshalViaCEP u body
      .send
        { Cep := cep.Cep
          Logradouro := cep.Logradouro
          Bairro := cep.Bairro
          Localidade := cep.Localidade
          Uf := cep.Uf
          Api := ascii "ViaCEP" }

/-- Function `getCepByApiCep` (lines 136-165).  The three errors are wrapped and
dropped; `defer resp.Body.Close()` at line 146 evaluates `resp.Body`, which panics
when `resp` is nil. -/
def getCepByApiCep (u : Upstream) (cepParam : GoString) : Task :=
  match u.get (ascii "https://cdn.apicep.com/file/apicep/" ++ cepParam ++ ascii ".json") with
  | (none, _error) => .panicked
  | (some resp, _error) =>
      let (body, _error) := (resp.body, resp.readErr)
      let (cep, _error) := unmarshalApiCEP u body
      .send
        { Cep := cep.Cep
          Logradouro := cep.Logradouro
          Bairro := cep.Bairro
          Localidade := cep.Localidade
          Uf := cep.Uf
          Api := ascii "ApiCep" }

/-! ## The arbitration (lines 71-91) -/

/-- What wakes the `select` statement: a record received from `cepChannel1`, one
received from `cepChannel2`, or the timer of `time.After`. -/
inductive Event where
  | recv1 (cep : CepData)
  | recv2 (cep : CepData)
  | timeout
deriving DecidableEq

/-- How one pass through the body of the `for` loop ends. -/
inductive Flow where
  /-- The body falls through and the loop iterates. -/
  | next
  /-- A `return` after this response has been written. -/
  | ret (r : Response)
deriving DecidableEq

/-- The three cases of the `select` statement (lines 73-90). -/
def selectCase : Event → Flow
  | .recv1 cep => .ret { status := StatusOK, json := true, body := some cep }
  | .recv2 cep => .ret { status := StatusOK, json := true, body := some cep }
  | .timeout => .ret { status := StatusGatewayTimeout, json := false, body := none }

/-- What happens next while the handler is blocked in the `select`. -/
inductive Happening where
  /-- The `select` proceeds with this event. -/
  | wake (e : Event)
  /-- The goroutine of an adapter panics.  Nothing in the program recovers a panic, so
  the run time terminates the whole process, the handler included. -/
  | crash
deriving DecidableEq

/-- How the handler ends. -/
inductive Outcome where
  /-- The handler returns after writing this response. -/
  | responded (r : Response)
  /-- The process is terminated while the handler waits: nothing is written. -/
  | crashed
deriving DecidableEq

/-- The `for` loop of lines 72-91 over what successively happens while it waits
(`none`: the schedule is impossible).  The result is how the handler ends together with
the number of waits completed; the first argument bounds the number of iterations. -/
def waitLoop : Nat → (Nat → Option Happening) → Nat → Option (Outcome × Nat)
  | 0, _, _ => none
  | fuel + 1, hp, i =>
      match hp i with
      | none => none
      | some .crash => some (.crashed, i)
      | some (.wake e) =>
          match selectCase e with
          | .ret r => some (.responded r, i + 1)
          | .next => waitLoop fuel hp (i + 1)

/-- Which of the things that can happen to a waiting handler comes first; the order is
the scheduler's and the network's, and is an input. -/
inductive Ready where
  /-- Goroutine `getCepByApiCep` arrives at its send on `cepChannel1`. -/
  | chan1
  /-- Goroutine `getCepByViaCep` arrives at its send on `cepChannel2`. -/
  | chan2
  /-- The second of `time.After` elapses. -/
  | timer
  /-- Goroutine `getCepByApiCep` panics. -/
  | panic1
  /-- Goroutine `getCepByViaCep` panics. -/
  | panic2
deriving DecidableEq

/-- What a choice of `Ready` makes happen.  A channel case proceeds only when the
goroutine writing to that channel gets to its send, and a goroutine can panic first only
when it does panic; in that case the process is terminated and no case proceeds.  A
failing `http.Get` may return at once (a URL that does not parse) or after more than the
second of the timer (a connection attempt that times out), so a panic may come before or
after the first event of the `select`. -/
def fire (t1 t2 : Task) : Ready → Option Happening
  | .chan1 =>
      match t1 with
      | .send v => some (.wake (.recv1 v))
      | .panicked => none
  | .chan2 =>
      match t2 with
      | .send v => some (.wake (.recv2 v))
      | .panicked => none
  | .timer => some (.wake .timeout)
  | .panic1 =>
      match t1 with
      | .send _ => none
      | .panicked => some .crash
  | .panic2 =>
      match t2 with
      | .send _ => none
      | .panicked => some .crash

/-- Function `getCepHandler` (lines 42-92): how the handler ends and the number of waits
completed, given the order in which things happen. -/
def getCepHandler (u : Upstream) (r : Request) (ready : Nat → Ready) (fuel : Nat) :
    Option (Outcome × Nat) :=
  match prepare r with
  | .reject status => some (.responded { status := status, json := false, body := none }, 0)
  | .start cepParam =>
      let t1 := getCepByApiCep u cepParam
      let t2 := getCepByViaCep u cepParam
      waitLoop fuel (fun i => fire t1 t2 (ready i)) 0

/-! ## Goroutines and unbuffered channels (lines 64-69, 126, 157) -/

/-- The handler's goroutine: blocked in the `select`, or returned. -/
inductive HandlerState where
  | waiting
  | returned
deriving DecidableEq

/-- An adapter's goroutine: before its send, blocked at its send, past its send, or
stopped by a panic. -/
inductive AdapterState where
  | running
  | sending (v : CepData)
  | done
  | panicked
deriving DecidableEq

/-- The goroutines of one request after line 69. -/
structure Sys where
  handler : HandlerState
  apiCep : AdapterState
  viaCep : AdapterState
deriving DecidableEq

/-- The moves of the goroutines. -/
inductive Action where
  /-- Goroutine `getCepByApiCep` runs up to its send (or panics). -/
  | reach1
  /-- Goroutine `getCepByViaCep` runs up to its send (or panics). -/
  | reach2
  /-- The handler's receive from `cepChannel1` meets the pending send. -/
  | recv1
  /-- The handler's receive from `cepChannel2` meets the pending send. -/
  | recv2
  /-- The timer case of the `select` fires. -/
  | timeout
deriving DecidableEq

/-- Where a running adapter gets to. -/
def reach : Task → AdapterState
  | .send v => .sending v
  | .panicked => .panicked

/-- Whether a goroutine has panicked: the process is terminated and nothing moves any
more. -/
def terminated (s : Sys) : Bool :=
  decide (s.apiCep = .panicked) || decide (s.viaCep = .panicked)

/-- Whether an adapter is blocked at its send. -/
def pending : AdapterState → Bool
  | .sending _ => true
  | _ => false

/-- One move.  Both channels are made without a capacity (lines 64-65), so a send
completes only together with a receive, and the only receives are the two channel
cases of the handler's `select`; all three cases return (lines 79, 85, 89).  A waiting
`select` takes a channel whose sender is pending, so the timer fires only when no send
is pending. -/
def step (t1 t2 : Task) (s : Sys) (a : Action) : Option Sys :=
  if terminated s then none
  else
    match a with
    | .reach1 =>
        match s.apiCep with
        | .running => some { s with apiCep := reach t1 }
        | _ => none
    | .reach2 =>
        match s.viaCep with
        | .running => some { s with viaCep := reach t2 }
        | _ => none
    | .recv1 =>
        match s.handler, s.apiCep with
        | .waiting, .sending _ => some { s with handler := .returned, apiCep := .done }
        | _, _ => none
    | .recv2 =>
        match s.handler, s.viaCep with
        | .waiting, .sending _ => some { s with handler := .returned, viaCep := .done }
        | _, _ => none
    | .timeout =>
        match s.handler with
        | .waiting =>
            if pending s.apiCep || pending s.viaCep then none
            else some { s with handler := .returned }
        | .returned => none

/-- A sequence of moves; `none` as soon as one of them is impossible. -/
def runActions (t1 t2 : Task) : Sys → List Action → Option Sys
  | s, [] => some s
  | s, a :: as =>
      match step t1 t2 s a with
      | some s' => runActions t1 t2 s' as
      | none => none

/-- The goroutines right after the two `go` statements. -/
def initSys : Sys := { handler := .waiting, apiCep := .running, viaCep := .running }

/-! ## Sample upstreams -/

/-- An upstream whose `http.Get` always fails: nil response, non-nil error. -/
def downUpstream (field : GoString → GoString → GoString) (unmarshalErr : GoString → Bool) :
    Upstream :=
  { get := fun _ => (none, true)
    field := field
    unmarshalErr := unmarshalErr }

/-- An upstream whose `http.Get` fails, with a nil response, on a URL that contains an
ASCII control character (such a URL does not parse), and otherwise answers with an empty
body. -/
def strictUpstream : Upstream :=
  { get := fun url =>
      if url.any (fun c => decide (c < 32 ∨ c = 127)) then (none, true)
      else (some { body := [], readErr := false }, false)
    field := fun _ _ => []
    unmarshalErr := fun _ => true }

/-- A record. -/
def sampleRecord (api : GoString) : CepData :=
  { Cep := ascii "01001-000"
    Logradouro := ascii "Praca da Se"
    Bairro := ascii "Se"
    Localidade := ascii "Sao Paulo"
    Uf := ascii "SP"
    Api := api }

/-- An upstream that answers every URL with an empty body and whose decoder finds a
different string under each key of either provider. -/
def sampleUpstream : Upstream :=
  { get := fun _ => (some { body := [], readErr := false }, false)
    field := fun _ tag =>
      if tag = ascii "cep" ∨ tag = ascii "code" then ascii "01001-000"
      else if tag = ascii "logradouro" ∨ tag = ascii "address" then ascii "Praca da Se"
      else if tag = ascii "bairro" ∨ tag = ascii "district" then ascii "Se"
      else if tag = ascii "localidade" ∨ tag = ascii "city" then ascii "Sao Paulo"
      else if tag = ascii "uf" ∨ tag = ascii "state" then ascii "SP"
      else []
    unmarshalErr := fun _ => false }

/-- The handler has returned on the timer, `getCepByApiCep` is blocked at its send and
`getCepByViaCep` is still running. -/
def oneBlocked : Sys :=
  { handler := .returned, apiCep := .sending (sampleRecord (ascii "ApiCep")), viaCep := .running }

/-- The handler has returned and both adapters are blocked at their sends. -/
def bothBlocked : Sys :=
  { handler := .returned, apiCep := .sending (sampleRecord (ascii "ApiCep")),
    viaCep := .sending (sampleRecord (ascii "ViaCEP")) }

/-! ## The language of the regular expression -/

theorem mem_run_digit (s t : GoString) :
    t ∈ digit.run s ↔ ∃ c, isDigit c = true ∧ s = c :: t := by
  cases s with
  | nil => simp [digit, Re.run]
  | cons c u =>
    by_cases h : 48 ≤ c ∧ c ≤ 57
    · simp [digit, Re.run, isDigit, h]
      constructor
      · rintro rfl; exact ⟨c, h, rfl, rfl⟩
      · rintro ⟨c', _, rfl, rfl⟩; rfl
    · simp [digit, Re.run, isDigit, h]
      rintro c' h1 h2 rfl
      exact absurd ⟨h1, h2⟩ h

theorem run_rep (r : Re) (n : Nat) : (Re.rep r n).run = iter r.run n := rfl

theorem run_cat (r q : Re) (s : GoString) : (Re.cat r q).run s = (r.run s).flatMap q.run := rfl

theorem run_opt (r : Re) (s : GoString) : (Re.opt r).run s = r.run s ++ [s] := rfl

theorem mem_iter_succ (f : GoString → List GoString) (n : Nat) (s t : GoString) :
    t ∈ iter f (n + 1) s ↔ ∃ u, u ∈ f s ∧ t ∈ iter f n u := by
  simp [iter, List.mem_flatMap]

theorem mem_iter_zero (f : GoString → List GoString) (s t : GoString) :
    t ∈ iter f 0 s ↔ t = s := by
  simp [iter]

theorem mem_run_digits3 (s t : GoString) :
    t ∈ (Re.rep digit 3).run s ↔
      ∃ x y z, isDigit x = true ∧ isDigit y = true ∧ isDigit z = true ∧ s = x :: y :: z :: t := by
  rw [run_rep]
  simp only [mem_iter_succ, mem_iter_zero, mem_run_digit]
  constructor
  · rintro ⟨_, ⟨x, hx, rfl⟩, _, ⟨y, hy, rfl⟩, _, ⟨z, hz, rfl⟩, rfl⟩
    exact ⟨x, y, z, hx, hy, hz, rfl⟩
  · rintro ⟨x, y, z, hx, hy, hz, rfl⟩
    exact ⟨_, ⟨x, hx, rfl⟩, _, ⟨y, hy, rfl⟩, _, ⟨z, hz, rfl⟩, rfl⟩

theorem mem_run_digits5 (s t : GoString) :
    t ∈ (Re.rep digit 5).run s ↔
      ∃ a b c d e, isDigit a = true ∧ isDigit b = true ∧ isDigit c = true ∧ isDigit d = true ∧
        isDigit e = true ∧ s = a :: b :: c :: d :: e :: t := by
  rw [run_rep]
  simp only [mem_iter_succ, mem_iter_zero, mem_run_digit]
  constructor
  · rintro ⟨_, ⟨a, ha, rfl⟩, _, ⟨b, hb, rfl⟩, _, ⟨c, hc, rfl⟩, _, ⟨d, hd, rfl⟩, _, ⟨e, he, rfl⟩, rfl⟩
    exact ⟨a, b, c, d, e, ha, hb, hc, hd, he, rfl⟩
  · rintro ⟨a, b, c, d, e, ha, hb, hc, hd, he, rfl⟩
    exact ⟨_, ⟨a, ha, rfl⟩, _, ⟨b, hb, rfl⟩, _, ⟨c, hc, rfl⟩, _, ⟨d, hd, rfl⟩, _, ⟨e, he, rfl⟩, rfl⟩

theorem mem_run_lit (c : Nat) (s t : GoString) : t ∈ (Re.lit c).run s ↔ s = c :: t := by
  cases s with
  | nil => simp [Re.run]
  | cons d u =>
    by_cases h : d = c
    · subst h
      simp only [Re.run, if_true, List.mem_singleton, List.cons.injEq, true_and]
      exact eq_comm
    · simp [Re.run, h]

theorem mem_run_hyphen (s t : GoString) :
    t ∈ (Re.opt (Re.lit 45)).run s ↔ s = 45 :: t ∨ s = t := by
  rw [run_opt, List.mem_append, mem_run_lit, List.mem_singleton]
  exact or_congr Iff.rfl eq_comm

/-- The strings a match of `cepRegexp` consumes. -/
theorem mem_run_cepRegexp (s t : GoString) :
    t ∈ cepRegexp.run s ↔
      ∃ a b c d e x y z, isDigit a = true ∧ isDigit b = true ∧ isDigit c = true ∧
        isDigit d = true ∧ isDigit e = true ∧ isDigit x = true ∧ isDigit y = true ∧
        isDigit z = true ∧
        (s = a :: b :: c :: d :: e :: 45 :: x :: y :: z :: t ∨
          s = a :: b :: c :: d :: e :: x :: y :: z :: t) := by
  unfold cepRegexp
  rw [run_cat, List.mem_flatMap]
  simp only [run_cat, List.mem_flatMap, mem_run_digits5, mem_run_digits3, mem_run_hyphen]
  constructor
  · rintro ⟨_, ⟨a, b, c, d, e, ha, hb, hc, hd, he, rfl⟩, _, h, x, y, z, hx, hy, hz, rfl⟩
    refine ⟨a, b, c, d, e, x, y, z, ha, hb, hc, hd, he, hx, hy, hz, ?_⟩
    rcases h with rfl | rfl
    · exact Or.inl rfl
    · exact Or.inr rfl
  · rintro ⟨a, b, c, d, e, x, y, z, ha, hb, hc, hd, he, hx, hy, hz, rfl | rfl⟩
    · exact ⟨_, ⟨a, b, c, d, e, ha, hb, hc, hd, he, rfl⟩, _, Or.inl rfl, x, y, z, hx, hy, hz, rfl⟩
    · exact ⟨_, ⟨a, b, c, d, e, ha, hb, hc, hd, he, rfl⟩, _, Or.inr rfl, x, y, z, hx, hy, hz, rfl⟩

/-- Method `MatchString` finds a match exactly when some suffix starts with one. -/
theorem matchString_iff (s : GoString) :
    cepRegexp.MatchString s = true ↔ ∃ p u t, s = p ++ u ∧ t ∈ cepRegexp.run u := by
  unfold Re.MatchString
  rw [List.any_eq_true]
  constructor
  · rintro ⟨u, hu, hne⟩
    rw [List.mem_tails] at hu
    obtain ⟨p, rfl⟩ := hu
    cases hr : cepRegexp.run u with
    | nil => rw [hr] at hne; simp at hne
    | cons t _ => exact ⟨p, u, t, rfl, by rw [hr]; exact List.mem_cons_self _ _⟩
  · rintro ⟨p, u, t, rfl, ht⟩
    refine ⟨u, ?_, ?_⟩
    · rw [List.mem_tails]; exact ⟨p, rfl⟩
    · cases hr : cepRegexp.run u with
      | nil => rw [hr] at ht; simp at ht
      | cons _ _ => rfl

/-- An accepted string of length 8 consists of eight digits. -/
theorem eight_digits_of_match (s : GoString) (hm : cepRegexp.MatchString s = true)
    (hl : s.length = 8) :
    ∃ a b c d e x y z, isDigit a = true ∧ isDigit b = true ∧ isDigit c = true ∧
      isDigit d = true ∧ isDigit e = true ∧ isDigit x = true ∧ isDigit y = true ∧
      isDigit z = true ∧ s = [a, b, c, d, e, x, y, z] := by
  obtain ⟨p, u, t, rfl, ht⟩ := (matchString_iff s).1 hm
  obtain ⟨a, b, c, d, e, x, y, z, ha, hb, hc, hd, he, hx, hy, hz, h | h⟩ :=
    (mem_run_cepRegexp u t).1 ht
  · subst h
    simp only [List.length_append, List.length_cons] at hl
    omega
  · subst h
    simp only [List.length_append, List.length_cons] at hl
    have hp : p = [] := List.length_eq_zero.1 (by omega)
    have ht0 : t = [] := List.length_eq_zero.1 (by omega)
    subst hp ht0
    exact ⟨a, b, c, d, e, x, y, z, ha, hb, hc, hd, he, hx, hy, hz, rfl⟩

/-- Eight digits are accepted. -/
theorem match_of_eight_digits (a b c d e x y z : Nat) (ha : isDigit a = true)
    (hb : isDigit b = true) (hc : isDigit c = true) (hd : isDigit d = true)
    (he : isDigit e = true) (hx : isDigit x = true) (hy : isDigit y = true)
    (hz : isDigit z = true) : cepRegexp.MatchString [a, b, c, d, e, x, y, z] = true :=
  (matchString_iff _).2 ⟨[], _, [], rfl,
    (mem_run_cepRegexp _ _).2 ⟨a, b, c, d, e, x, y, z, ha, hb, hc, hd, he, hx, hy, hz, Or.inr rfl⟩⟩

/-- The canonical shape, spelled out. -/
theorem canonical_iff (s : GoString) :
    canonical s = true ↔
      ∃ a b c d e x y z, isDigit a = true ∧ isDigit b = true ∧ isDigit c = true ∧
        isDigit d = true ∧ isDigit e = true ∧ isDigit x = true ∧ isDigit y = true ∧
        isDigit z = true ∧ s = [a, b, c, d, e, 45, x, y, z] := by
  constructor
  · intro h
    match s, h with
    | [a, b, c, d, e, h', x, y, z], h =>
      simp only [canonical, Bool.and_eq_true, decide_eq_true_eq] at h
      obtain ⟨⟨⟨⟨⟨⟨⟨⟨ha, hb⟩, hc⟩, hd⟩, he⟩, rfl⟩, hx⟩, hy⟩, hz⟩ := h
      exact ⟨a, b, c, d, e, x, y, z, ha, hb, hc, hd, he, hx, hy, hz, rfl⟩
  · rintro ⟨a, b, c, d, e, x, y, z, ha, hb, hc, hd, he, hx, hy, hz, rfl⟩
    simp [canonical, ha, hb, hc, hd, he, hx, hy, hz]

/-- A string of the canonical shape is accepted. -/
theorem match_of_canonical (s : GoString) (h : canonical s = true) :
    cepRegexp.MatchString s = true := by
  obtain ⟨a, b, c, d, e, x, y, z, ha, hb, hc, hd, he, hx, hy, hz, rfl⟩ := (canonical_iff s).1 h
  exact (matchString_iff _).2 ⟨[], _, [], rfl,
    (mem_run_cepRegexp _ _).2 ⟨a, b, c, d, e, x, y, z, ha, hb, hc, hd, he, hx, hy, hz, Or.inl rfl⟩⟩

/-- A digit is not the hyphen. -/
theorem isDigit_ne_hyphen (c : Nat) (h : isDigit c = true) : c ≠ 45 := by
  simp only [isDigit, decide_eq_true_eq] at h
  omega

/-- What `prepare` does with a request on path `/` whose parameter is accepted. -/
theorem prepare_of_match (cep : GoString) (hm : cepRegexp.MatchString cep = true) :
    prepare { path := ascii "/", cep := cep } =
      if cep.length = 8 then .start (cep.take 5 ++ ascii "-" ++ cep.drop 5) else .start cep := by
  have hne : cep ≠ ascii "" := by
    rintro rfl
    revert hm
    decide
  simp [prepare, hm, hne]

/-! ## Validation and normalisation -/

/-- The two `go` statements of `getCepHandler` receive what `dispatched` lists, and a
rejected request performs no wait. -/
theorem getCepHandler_dispatched (u : Upstream) (r : Request) (ready : Nat → Ready)
    (fuel : Nat) :
    getCepHandler u r ready fuel =
      match dispatched r, prepare r with
      | some (c1, c2), _ =>
          waitLoop fuel (fun i => fire (getCepByApiCep u c1) (getCepByViaCep u c2) (ready i)) 0
      | none, .reject status =>
          some (.responded { status := status, json := false, body := none }, 0)
      | none, .start _ => none := by
  unfold getCepHandler dispatched
  cases prepare r <;> rfl

/-- A request on path `/` whose parameter contains no match of the expression of
line 54 is answered 400 and nothing is dispatched. -/
theorem reject_of_no_match (cep : GoString) (h : cepRegexp.MatchString cep = false) :
    prepare { path := ascii "/", cep := cep } = .reject StatusBadRequest ∧
      dispatched { path := ascii "/", cep := cep } = none := by
  have hp : prepare { path := ascii "/", cep := cep } = .reject StatusBadRequest := by
    simp [prepare, h]
  exact ⟨hp, by simp [dispatched, hp]⟩

/-- A request is dispatched only on path `/` and with an accepted parameter. -/
theorem match_of_start (r : Request) (c : GoString) (h : prepare r = .start c) :
    r.path = ascii "/" ∧ cepRegexp.MatchString r.cep = true := by
  unfold prepare at h
  by_cases hp : r.path = ascii "/"
  · refine ⟨hp, ?_⟩
    cases hm : cepRegexp.MatchString r.cep with
    | true => rfl
    | false =>
      simp only [hp, ne_eq, not_true_eq_false, if_false, hm, Bool.not_false, if_true] at h
      split at h <;> cases h
  · simp [hp] at h

/-- Claim C1 fails on the code: the parameter `123456789` on path `/` does not match
the anchored pattern `^[0-9]{5}-?[0-9]{3}$`, yet the handler does not answer 400: the
expression of line 54 has no anchors, finds `12345678` inside it, and both adapters are
started with `123456789`. -/
theorem C1_unanchored_pattern_accepts_nine_digits :
    cepRegexp.fullMatch (ascii "123456789") = false ∧
      cepRegexp.MatchString (ascii "123456789") = true ∧
      prepare { path := ascii "/", cep := ascii "123456789" } = .start (ascii "123456789") ∧
      dispatched { path := ascii "/", cep := ascii "123456789" } =
        some (ascii "123456789", ascii "123456789") := by
  decide

/-- Claim C2: for a request on path `/` whose parameter is exactly eight decimal digits,
both adapters are started with the same string, the first five digits, a hyphen and the
last three digits. -/
theorem C2_eight_digits_get_hyphen (r : Request) (hp : r.path = ascii "/")
    (hl : r.cep.length = 8) (hd : ∀ c ∈ r.cep, isDigit c = true) :
    dispatched r =
      some (r.cep.take 5 ++ ascii "-" ++ r.cep.drop 5, r.cep.take 5 ++ ascii "-" ++ r.cep.drop 5) := by
  obtain ⟨path, cep⟩ := r
  simp only at hp hl hd
  subst hp
  match cep, hl, hd with
  | [a, b, c, d, e, x, y, z], _, hd =>
    have hm : cepRegexp.MatchString [a, b, c, d, e, x, y, z] = true :=
      match_of_eight_digits a b c d e x y z (hd a (by simp)) (hd b (by simp)) (hd c (by simp))
        (hd d (by simp)) (hd e (by simp)) (hd x (by simp)) (hd y (by simp)) (hd z (by simp))
    have hpre := prepare_of_match _ hm
    simp only [List.length_cons, List.length_nil, if_true] at hpre
    simp only [dispatched, hpre]

/-- Witness of C2: `01001000` is dispatched as `01001-000`. -/
theorem C2_eight_digits_get_hyphen_witness :
    dispatched { path := ascii "/", cep := ascii "01001000" } =
      some (ascii "01001-000", ascii "01001-000") :=
  C2_eight_digits_get_hyphen { path := ascii "/", cep := ascii "01001000" } (by decide)
    (by decide) (by decide)

/-- Claim C3: an accepted parameter that contains a hyphen, and in particular every
parameter of the shape five digits, hyphen, three digits on path `/`, is handed to both
adapters unchanged. -/
theorem C3_hyphenated_unchanged (r : Request)
    (h : (45 ∈ r.cep ∧ (dispatched r).isSome = true) ∨
      (r.path = ascii "/" ∧ canonical r.cep = true)) :
    dispatched r = some (r.cep, r.cep) := by
  obtain ⟨path, cep⟩ := r
  simp only at h
  have key : path = ascii "/" ∧ cepRegexp.MatchString cep = true ∧ 45 ∈ cep := by
    rcases h with ⟨hh, hs⟩ | ⟨hp, hc⟩
    · cases hpr : prepare { path := path, cep := cep } with
      | reject st => simp [dispatched, hpr] at hs
      | start c =>
        obtain ⟨h1, h2⟩ := match_of_start _ c hpr
        exact ⟨h1, h2, hh⟩
    · refine ⟨hp, match_of_canonical cep hc, ?_⟩
      obtain ⟨a, b, c, d, e, x, y, z, -, -, -, -, -, -, -, -, rfl⟩ := (canonical_iff cep).1 hc
      simp
  obtain ⟨hp, hm, hh⟩ := key
  subst hp
  have hlen : cep.length ≠ 8 := by
    intro hl
    obtain ⟨a, b, c, d, e, x, y, z, ha, hb, hc, hd, he, hx, hy, hz, rfl⟩ :=
      eight_digits_of_match cep hm hl
    simp only [List.mem_cons, List.mem_singleton, List.not_mem_nil, or_false] at hh
    rcases hh with h | h | h | h | h | h | h | h
    · exact isDigit_ne_hyphen a ha h.symm
    · exact isDigit_ne_hyphen b hb h.symm
    · exact isDigit_ne_hyphen c hc h.symm
    · exact isDigit_ne_hyphen d hd h.symm
    · exact isDigit_ne_hyphen e he h.symm
    · exact isDigit_ne_hyphen x hx h.symm
    · exact isDigit_ne_hyphen y hy h.symm
    · exact isDigit_ne_hyphen z hz h.symm
  have hpre := prepare_of_match cep hm
  rw [if_neg hlen] at hpre
  simp only [dispatched, hpre]

/-- Witness of C3: `01001-000` is dispatched as it is. -/
theorem C3_hyphenated_unchanged_witness :
    dispatched { path := ascii "/", cep := ascii "01001-000" } =
      some (ascii "01001-000", ascii "01001-000") :=
  C3_hyphenated_unchanged { path := ascii "/", cep := ascii "01001-000" }
    (Or.inr ⟨by decide, by decide⟩)

/-- Claim C8 fails on the code: on path `/` the parameter `x12345-678y` is accepted by
the expression of line 54, which has no anchors, and both adapters are started with
`x12345-678y`, which is not of the shape five digits, hyphen, three digits. -/
theorem C8_dispatched_code_not_canonical :
    dispatched { path := ascii "/", cep := ascii "x12345-678y" } =
        some (ascii "x12345-678y", ascii "x12345-678y") ∧
      canonical (ascii "x12345-678y") = false ∧
      (ascii "x12345-678y").length = 11 := by
  decide

/-- Claim C10: a parameter that passes the check of line 55 and has length 8 consists
of eight decimal digits, so line 60 yields five digits, a hyphen and three digits; and
an accepted parameter of any other length is left as it is. -/
theorem C10_insertion_only_on_eight_digits (cep : GoString)
    (hm : cepRegexp.MatchString cep = true) :
    (cep.length = 8 →
        (∀ c ∈ cep, isDigit c = true) ∧
          canonical (cep.take 5 ++ ascii "-" ++ cep.drop 5) = true ∧
          prepare { path := ascii "/", cep := cep } =
            .start (cep.take 5 ++ ascii "-" ++ cep.drop 5)) ∧
      (cep.length ≠ 8 → prepare { path := ascii "/", cep := cep } = .start cep) := by
  have hpre := prepare_of_match cep hm
  constructor
  · intro hl
    rw [if_pos hl] at hpre
    obtain ⟨a, b, c, d, e, x, y, z, ha, hb, hc, hd, he, hx, hy, hz, rfl⟩ :=
      eight_digits_of_match cep hm hl
    refine ⟨?_, ?_, hpre⟩
    · intro k hk
      simp only [List.mem_cons, List.mem_singleton, List.not_mem_nil, or_false] at hk
      rcases hk with rfl | rfl | rfl | rfl | rfl | rfl | rfl | rfl <;> assumption
    · exact (canonical_iff _).2 ⟨a, b, c, d, e, x, y, z, ha, hb, hc, hd, he, hx, hy, hz, rfl⟩
  · intro hl
    rw [if_neg hl] at hpre
    exact hpre

/-- Witness of C10: `01001000` passes the check, has length 8, and line 60 turns it into
`01001-000`. -/
theorem C10_insertion_only_on_eight_digits_witness :
    canonical (ascii "01001-000") = true ∧
      prepare { path := ascii "/", cep := ascii "01001000" } = .start (ascii "01001-000") :=
  ((C10_insertion_only_on_eight_digits (ascii "01001000") (by decide)).1 (by decide)).2

/-! ## The adapters -/

/-- With a response in hand, `getCepByViaCep` reaches its send, whatever the read and
decode errors, with the decoded fields and its own name. -/
theorem viaCep_sends (u : Upstream) (cepParam : GoString) (resp : HttpResponse) (e : Bool)
    (h : u.get (ascii "https://viacep.com.br/ws/" ++ cepParam ++ ascii "/json/") =
      (some resp, e)) :
    getCepByViaCep u cepParam =
      .send
        { Cep := u.field resp.body (ascii "cep")
          Logradouro := u.field resp.body (ascii "logradouro")
          Bairro := u.field resp.body (ascii "bairro")
          Localidade := u.field resp.body (ascii "localidade")
          Uf := u.field resp.body (ascii "uf")
          Api := ascii "ViaCEP" } := by
  unfold getCepByViaCep
  rw [h]
  rfl

/-- With a response in hand, `getCepByApiCep` reaches its send, whatever the read and
decode errors, with the decoded fields and its own name. -/
theorem apiCep_sends (u : Upstream) (cepParam : GoString) (resp : HttpResponse) (e : Bool)
    (h : u.get (ascii "https://cdn.apicep.com/file/apicep/" ++ cepParam ++ ascii ".json") =
      (some resp, e)) :
    getCepByApiCep u cepParam =
      .send
        { Cep := u.field resp.body (ascii "code")
          Logradouro := u.field resp.body (ascii "address")
          Bairro := u.field resp.body (ascii "district")
          Localidade := u.field resp.body (ascii "city")
          Uf := u.field resp.body (ascii "state")
          Api := ascii "ApiCep" } := by
  unfold getCepByApiCep
  rw [h]
  rfl

/-- Every record `getCepByViaCep` sends is tagged `ViaCEP`. -/
theorem viaCep_tag (u : Upstream) (cepParam : GoString) (v : CepData)
    (h : getCepByViaCep u cepParam = .send v) : v.Api = ascii "ViaCEP" := by
  unfold getCepByViaCep at h
  split at h
  · cases h
  · cases h; rfl

/-- Every record `getCepByApiCep` sends is tagged `ApiCep`. -/
theorem apiCep_tag (u : Upstream) (cepParam : GoString) (v : CepData)
    (h : getCepByApiCep u cepParam = .send v) : v.Api = ascii "ApiCep" := by
  unfold getCepByApiCep at h
  split at h
  · cases h
  · cases h; rfl

/-- The loop returns in its first pass when the `select` is woken. -/
theorem waitLoop_first (fuel : Nat) (hp : Nat → Option Happening) (e : Event)
    (resp : Response) (h : hp 0 = some (.wake e)) (hr : selectCase e = .ret resp) :
    waitLoop (fuel + 1) hp 0 = some (.responded resp, 1) := by
  unfold waitLoop
  rw [h]
  simp only [hr]

/-- The loop ends without a response when a goroutine panics first. -/
theorem waitLoop_crash (fuel : Nat) (hp : Nat → Option Happening) (h : hp 0 = some .crash) :
    waitLoop (fuel + 1) hp 0 = some (.crashed, 0) := by
  unfold waitLoop
  rw [h]

/-- A rejected request is answered 404 or 400. -/
theorem reject_status (r : Request) (st : Nat) (h : prepare r = .reject st) :
    st = 404 ∨ st = 400 := by
  unfold prepare at h
  simp only [StatusNotFound, StatusBadRequest] at h
  split at h
  · cases h; exact Or.inl rfl
  · split at h
    · cases h; exact Or.inr rfl
    · split at h
      · cases h; exact Or.inr rfl
      · split at h <;> cases h

/-! ## The arbitration -/

/-- For a request that passes validation, when the first thing to happen is an event of
the `select`, the handler returns after exactly one wait, whatever happens later and
however many iterations are allowed: a delivery on channel 1 or on channel 2 gives
status 200 with exactly the record received, the timer gives status 504 with no record;
and no case of the `select` lets the loop iterate. -/
theorem select_first_event_wins (u : Upstream) (r : Request) (ready : Nat → Ready)
    (fuel : Nat) (cepParam : GoString) (hv : prepare r = .start cepParam) :
    (∀ cep, fire (getCepByApiCep u cepParam) (getCepByViaCep u cepParam) (ready 0) =
          some (.wake (.recv1 cep)) →
        getCepHandler u r ready (fuel + 1) =
          some (.responded { status := 200, json := true, body := some cep }, 1)) ∧
      (∀ cep, fire (getCepByApiCep u cepParam) (getCepByViaCep u cepParam) (ready 0) =
          some (.wake (.recv2 cep)) →
        getCepHandler u r ready (fuel + 1) =
          some (.responded { status := 200, json := true, body := some cep }, 1)) ∧
      (fire (getCepByApiCep u cepParam) (getCepByViaCep u cepParam) (ready 0) =
          some (.wake .timeout) →
        getCepHandler u r ready (fuel + 1) =
          some (.responded { status := 504, json := false, body := none }, 1)) ∧
      ∀ e : Event, selectCase e ≠ .next := by
  refine ⟨?_, ?_, ?_, ?_⟩
  · intro cep he
    unfold getCepHandler
    rw [hv]
    exact waitLoop_first fuel (fun i => fire _ _ (ready i)) _ _ he rfl
  · intro cep he
    unfold getCepHandler
    rw [hv]
    exact waitLoop_first fuel (fun i => fire _ _ (ready i)) _ _ he rfl
  · intro he
    unfold getCepHandler
    rw [hv]
    exact waitLoop_first fuel (fun i => fire _ _ (ready i)) _ _ he rfl
  · intro e
    cases e <;> simp [selectCase]

/-- Claim C4 fails on the code: the parameter `12345678` followed by a line feed on path
`/` passes validation (the expression of line 54 has no anchors), `http.Get` fails on the
URL built from it and returns a nil response, both adapters panic at
`defer resp.Body.Close()`, and when such a panic comes first the process is terminated
while the handler waits: the arbitration ends with no outcome, neither 200 nor 504,
however many iterations are allowed. -/
theorem C4_adapter_panic_leaves_no_outcome (fuel : Nat) :
    prepare { path := ascii "/", cep := ascii "12345678" ++ [10] } =
        .start (ascii "12345678" ++ [10]) ∧
      getCepByApiCep strictUpstream (ascii "12345678" ++ [10]) = .panicked ∧
      getCepByViaCep strictUpstream (ascii "12345678" ++ [10]) = .panicked ∧
      getCepHandler strictUpstream { path := ascii "/", cep := ascii "12345678" ++ [10] }
          (fun _ => .panic1) (fuel + 1) = some (.crashed, 0) ∧
      getCepHandler strictUpstream { path := ascii "/", cep := ascii "12345678" ++ [10] }
          (fun _ => .panic2) (fuel + 1) = some (.crashed, 0) := by
  have hp : prepare { path := ascii "/", cep := ascii "12345678" ++ [10] } =
      .start (ascii "12345678" ++ [10]) := by decide
  have h1 : getCepByApiCep strictUpstream (ascii "12345678" ++ [10]) = .panicked := by decide
  have h2 : getCepByViaCep strictUpstream (ascii "12345678" ++ [10]) = .panicked := by decide
  refine ⟨hp, h1, h2, ?_, ?_⟩
  · unfold getCepHandler
    rw [hp]
    exact waitLoop_crash fuel _ (by simp only [fire, h1])
  · unfold getCepHandler
    rw [hp]
    exact waitLoop_crash fuel _ (by simp only [fire, h2])

/-- Claim C5: whenever the upstream returns a response, `getCepByViaCep` sends a record
with `Api = "ViaCEP"` and `getCepByApiCep` one with `Api = "ApiCep"`; and every response
of the handler with status 200 carries a record sent by the adapter of the channel that
was ready first, tagged `ApiCep` for channel 1 and `ViaCEP` for channel 2. -/
theorem C5_api_names_the_adapter (u : Upstream) :
    (∀ cepParam resp e,
        u.get (ascii "https://viacep.com.br/ws/" ++ cepParam ++ ascii "/json/") = (some resp, e) →
          ∃ v, getCepByViaCep u cepParam = .send v ∧ v.Api = ascii "ViaCEP") ∧
      (∀ cepParam resp e,
        u.get (ascii "https://cdn.apicep.com/file/apicep/" ++ cepParam ++ ascii ".json") =
            (some resp, e) →
          ∃ v, getCepByApiCep u cepParam = .send v ∧ v.Api = ascii "ApiCep") ∧
      ∀ r ready fuel resp n,
        getCepHandler u r ready fuel = some (.responded resp, n) → resp.status = 200 →
          ∃ cepParam v, prepare r = .start cepParam ∧ resp.body = some v ∧
            ((ready 0 = .chan1 ∧ getCepByApiCep u cepParam = .send v ∧ v.Api = ascii "ApiCep") ∨
              (ready 0 = .chan2 ∧ getCepByViaCep u cepParam = .send v ∧
                v.Api = ascii "ViaCEP")) := by
  refine ⟨?_, ?_, ?_⟩
  · intro cepParam resp e h
    exact ⟨_, viaCep_sends u cepParam resp e h, rfl⟩
  · intro cepParam resp e h
    exact ⟨_, apiCep_sends u cepParam resp e h, rfl⟩
  · intro r ready fuel resp n h hs
    unfold getCepHandler at h
    cases hp : prepare r with
    | reject st =>
      rw [hp] at h
      simp only [Option.some.injEq, Prod.mk.injEq, Outcome.responded.injEq] at h
      obtain ⟨rfl, -⟩ := h
      have hst : st = 200 := hs
      rcases reject_status r st hp with h4 | h4 <;> omega
    | start cepParam =>
      rw [hp] at h
      simp only at h
      cases fuel with
      | zero => simp [waitLoop] at h
      | succ k =>
        cases hr : ready 0 with
        | chan1 =>
          cases ht : getCepByApiCep u cepParam with
          | panicked => simp [waitLoop, fire, hr, ht] at h
          | send v =>
            rw [waitLoop_first k _ (.recv1 v) _ (by simp only [hr, ht, fire]) rfl] at h
            simp only [Option.some.injEq, Prod.mk.injEq, Outcome.responded.injEq] at h
            obtain ⟨rfl, -⟩ := h
            exact ⟨cepParam, v, rfl, rfl, Or.inl ⟨rfl, ht, apiCep_tag u cepParam v ht⟩⟩
        | chan2 =>
          cases ht : getCepByViaCep u cepParam with
          | panicked => simp [waitLoop, fire, hr, ht] at h
          | send v =>
            rw [waitLoop_first k _ (.recv2 v) _ (by simp only [hr, ht, fire]) rfl] at h
            simp only [Option.some.injEq, Prod.mk.injEq, Outcome.responded.injEq] at h
            obtain ⟨rfl, -⟩ := h
            exact ⟨cepParam, v, rfl, rfl, Or.inr ⟨rfl, ht, viaCep_tag u cepParam v ht⟩⟩
        | timer =>
          rw [waitLoop_first k _ .timeout _ (by simp only [hr, fire]) rfl] at h
          simp only [Option.some.injEq, Prod.mk.injEq, Outcome.responded.injEq] at h
          obtain ⟨rfl, -⟩ := h
          simp [StatusGatewayTimeout] at hs
        | panic1 =>
          cases ht : getCepByApiCep u cepParam with
          | panicked => simp [waitLoop, fire, hr, ht] at h
          | send v => simp [waitLoop, fire, hr, ht] at h
        | panic2 =>
          cases ht : getCepByViaCep u cepParam with
          | panicked => simp [waitLoop, fire, hr, ht] at h
          | send v => simp [waitLoop, fire, hr, ht] at h

/-- Witness of C5: with an upstream that answers, both adapters send a record carrying
their own name, and channel 2 ready first gives status 200 with a record tagged
`ViaCEP`. -/
theorem C5_api_names_the_adapter_witness :
    (∃ v, getCepByViaCep sampleUpstream (ascii "01001-000") = .send v ∧
        v.Api = ascii "ViaCEP") ∧
      (∃ v, getCepByApiCep sampleUpstream (ascii "01001-000") = .send v ∧
        v.Api = ascii "ApiCep") ∧
      ∃ cepParam v,
        prepare { path := ascii "/", cep := ascii "01001-000" } = .start cepParam ∧
          some (sampleRecord (ascii "ViaCEP")) = some v ∧
          ((Ready.chan2 = .chan1 ∧ getCepByApiCep sampleUpstream cepParam = .send v ∧
              v.Api = ascii "ApiCep") ∨
            (Ready.chan2 = .chan2 ∧ getCepByViaCep sampleUpstream cepParam = .send v ∧
              v.Api = ascii "ViaCEP")) :=
  ⟨(C5_api_names_the_adapter sampleUpstream).1 (ascii "01001-000") _ false rfl,
    (C5_api_names_the_adapter sampleUpstream).2.1 (ascii "01001-000") _ false rfl,
    (C5_api_names_the_adapter sampleUpstream).2.2
      { path := ascii "/", cep := ascii "01001-000" } (fun _ => .chan2) 1
      { status := 200, json := true, body := some (sampleRecord (ascii "ViaCEP")) } 1
      (by decide) (by decide)⟩

/-- Claim C6 fails on the code: when `http.Get` fails and returns a nil response, both
adapters panic at `defer resp.Body.Close()` (lines 115 and 146) and send nothing,
whatever the decoder would do. -/
theorem C6_transport_failure_panics (field : GoString → GoString → GoString)
    (unmarshalErr : GoString → Bool) (cepParam : GoString) :
    getCepByViaCep (downUpstream field unmarshalErr) cepParam = .panicked ∧
      getCepByApiCep (downUpstream field unmarshalErr) cepParam = .panicked :=
  ⟨rfl, rfl⟩

/-- The other three kinds of failure of claim C6 do not stop an adapter: with a response
in hand, whether or not reading the body or decoding it fails, each adapter reaches its
send with one record. -/
theorem adapters_send_despite_read_and_decode_errors (get : GoString → HttpResponse)
    (field : GoString → GoString → GoString) (unmarshalErr : GoString → Bool)
    (getErr : GoString → Bool) (cepParam : GoString) :
    (∃ v, getCepByViaCep
        { get := fun url => (some (get url), getErr url), field := field,
          unmarshalErr := unmarshalErr } cepParam = .send v) ∧
      ∃ v, getCepByApiCep
        { get := fun url => (some (get url), getErr url), field := field,
          unmarshalErr := unmarshalErr } cepParam = .send v :=
  ⟨⟨_, rfl⟩, ⟨_, rfl⟩⟩

/-- Claim C7: when the upstream returns a response, the record sent by `getCepByApiCep`
has in `Cep`, `Logradouro`, `Bairro`, `Localidade`, `Uf` what the decoder stores for the
keys `code`, `address`, `district`, `city`, `state`, and the record sent by
`getCepByViaCep` has in the same fields what it stores for the keys `cep`, `logradouro`,
`bairro`, `localidade`, `uf`. -/
theorem C7_fields_mirror_upstream (u : Upstream) (cepParam : GoString)
    (respA respV : HttpResponse) (eA eV : Bool)
    (hA : u.get (ascii "https://cdn.apicep.com/file/apicep/" ++ cepParam ++ ascii ".json") =
      (some respA, eA))
    (hV : u.get (ascii "https://viacep.com.br/ws/" ++ cepParam ++ ascii "/json/") =
      (some respV, eV)) :
    getCepByApiCep u cepParam =
        .send
          { Cep := u.field respA.body (ascii "code")
            Logradouro := u.field respA.body (ascii "address")
            Bairro := u.field respA.body (ascii "district")
            Localidade := u.field respA.body (ascii "city")
            Uf := u.field respA.body (ascii "state")
            Api := ascii "ApiCep" } ∧
      getCepByViaCep u cepParam =
        .send
          { Cep := u.field respV.body (ascii "cep")
            Logradouro := u.field respV.body (ascii "logradouro")
            Bairro := u.field respV.body (ascii "bairro")
            Localidade := u.field respV.body (ascii "localidade")
            Uf := u.field respV.body (ascii "uf")
            Api := ascii "ViaCEP" } :=
  ⟨apiCep_sends u cepParam respA eA hA, viaCep_sends u cepParam respV eV hV⟩

/-- Witness of C7: the sample upstream, whose decoder finds a different string under
each key. -/
theorem C7_fields_mirror_upstream_witness :
    getCepByApiCep sampleUpstream (ascii "01001-000") =
        .send
          { Cep := ascii "01001-000"
            Logradouro := ascii "Praca da Se"
            Bairro := ascii "Se"
            Localidade := ascii "Sao Paulo"
            Uf := ascii "SP"
            Api := ascii "ApiCep" } ∧
      getCepByViaCep sampleUpstream (ascii "01001-000") =
        .send
          { Cep := ascii "01001-000"
            Logradouro := ascii "Praca da Se"
            Bairro := ascii "Se"
            Localidade := ascii "Sao Paulo"
            Uf := ascii "SP"
            Api := ascii "ViaCEP" } :=
  C7_fields_mirror_upstream sampleUpstream (ascii "01001-000") { body := [], readErr := false }
    { body := [], readErr := false } false false (by decide) (by decide)

/-! ## The losing adapter -/

/-- A running adapter does not get past its send by itself. -/
theorem reach_ne_done (t : Task) : reach t ≠ .done := by
  cases t <;> simp [reach]

/-- With the handler returned, the only possible move is an adapter running up to its
send (or its panic); the other adapter is left as it is. -/
theorem step_returned (t1 t2 : Task) (a1 a2 : AdapterState) (a : Action) (m : Sys)
    (h : step t1 t2 { handler := .returned, apiCep := a1, viaCep := a2 } a = some m) :
    m.handler = .returned ∧
      ((m.apiCep = a1 ∧ a2 = .running ∧ m.viaCep = reach t2) ∨
        (m.viaCep = a2 ∧ a1 = .running ∧ m.apiCep = reach t1)) := by
  unfold step at h
  split at h
  · cases h
  · cases a with
    | reach1 =>
      cases a1 with
      | running =>
        simp only [Option.some.injEq] at h
        subst h
        exact ⟨rfl, Or.inr ⟨rfl, rfl, rfl⟩⟩
      | sending _ => simp at h
      | done => simp at h
      | panicked => simp at h
    | reach2 =>
      cases a2 with
      | running =>
        simp only [Option.some.injEq] at h
        subst h
        exact ⟨rfl, Or.inl ⟨rfl, rfl, rfl⟩⟩
      | sending _ => simp at h
      | done => simp at h
      | panicked => simp at h
    | recv1 => cases a1 <;> simp at h
    | recv2 => cases a2 <;> simp at h
    | timeout => simp at h

/-- Once the handler has returned, no move completes a send: the handler stays returned,
an adapter is past its send only if it already was, and a pending send stays pending. -/
theorem after_return (t1 t2 : Task) (acts : List Action) :
    ∀ s s' : Sys, s.handler = .returned → runActions t1 t2 s acts = some s' →
      s'.handler = .returned ∧ (s'.apiCep = .done → s.apiCep = .done) ∧
        (s'.viaCep = .done → s.viaCep = .done) ∧
        (∀ v, s.apiCep = .sending v → s'.apiCep = .sending v) ∧
        (∀ v, s.viaCep = .sending v → s'.viaCep = .sending v) := by
  induction acts with
  | nil =>
    intro s s' hh hr
    simp only [runActions, Option.some.injEq] at hr
    subst hr
    exact ⟨hh, id, id, fun _ h => h, fun _ h => h⟩
  | cons a as ih =>
    intro s s' hh hr
    obtain ⟨h, a1, a2⟩ := s
    simp only at hh
    subst hh
    simp only [runActions] at hr
    cases hs : step t1 t2 { handler := .returned, apiCep := a1, viaCep := a2 } a with
    | none => rw [hs] at hr; cases hr
    | some m =>
      rw [hs] at hr
      obtain ⟨hm, hcase⟩ := step_returned t1 t2 a1 a2 a m hs
      obtain ⟨k1, k2, k3, k4, k5⟩ := ih m s' hm hr
      refine ⟨k1, ?_, ?_, ?_, ?_⟩
      · intro hd
        rcases hcase with ⟨e1, -, -⟩ | ⟨-, -, e3⟩
        · rw [← e1]; exact k2 hd
        · exact absurd (e3 ▸ k2 hd) (reach_ne_done t1)
      · intro hd
        rcases hcase with ⟨-, -, e3⟩ | ⟨e1, -, -⟩
        · exact absurd (e3 ▸ k3 hd) (reach_ne_done t2)
        · rw [← e1]; exact k3 hd
      · intro v hv
        rcases hcase with ⟨e1, -, -⟩ | ⟨-, e2, -⟩
        · exact k4 v (e1.trans hv)
        · simp only at hv; rw [e2] at hv; cases hv
      · intro v hv
        rcases hcase with ⟨-, e2, -⟩ | ⟨e1, -, -⟩
        · simp only at hv; rw [e2] at hv; cases hv
        · exact k5 v (e1.trans hv)

/-- Claim C9 as amended: once the handler has returned, the send of an adapter on its
unbuffered channel is never completed.  After every further sequence of moves the
handler is still returned, a send that was pending is still pending, and no adapter has
got past its send that had not already. -/
theorem C9_send_after_return_never_completes (t1 t2 : Task) (s s' : Sys)
    (acts : List Action) (hret : s.handler = .returned)
    (hrun : runActions t1 t2 s acts = some s') :
    s'.handler = .returned ∧ (s'.apiCep = .done → s.apiCep = .done) ∧
      (s'.viaCep = .done → s.viaCep = .done) ∧
      (∀ v, s.apiCep = .sending v → s'.apiCep = .sending v) ∧
      (∀ v, s.viaCep = .sending v → s'.viaCep = .sending v) :=
  after_return t1 t2 acts s s' hret hrun

/-- Witness of C9 as amended: the timer has fired, `getCepByApiCep` is blocked at its send
and `getCepByViaCep` still running; after it gets to its send both are blocked. -/
theorem C9_send_after_return_never_completes_witness :
    runActions (.send (sampleRecord (ascii "ApiCep"))) (.send (sampleRecord (ascii "ViaCEP")))
        oneBlocked [.reach2] = some bothBlocked ∧
      bothBlocked.handler = .returned ∧ (bothBlocked.apiCep = .done → oneBlocked.apiCep = .done) ∧
      (bothBlocked.viaCep = .done → oneBlocked.viaCep = .done) ∧
      (∀ v, oneBlocked.apiCep = .sending v → bothBlocked.apiCep = .sending v) ∧
      (∀ v, oneBlocked.viaCep = .sending v → bothBlocked.viaCep = .sending v) :=
  ⟨by decide,
    C9_send_after_return_never_completes (.send (sampleRecord (ascii "ApiCep")))
      (.send (sampleRecord (ascii "ViaCEP"))) oneBlocked bothBlocked [.reach2] (by decide)
      (by decide)⟩

/-- Claim C9 fails on the code: both upstreams answer, the handler receives the record of
`getCepByApiCep` from channel 1 and returns, and the send of `getCepByViaCep` on channel
2, which it has reached, is still pending after every further sequence of moves.  When
the timer fires first, the same holds of both adapters. -/
theorem C9_losing_send_blocks_forever :
    runActions (.send (sampleRecord (ascii "ApiCep"))) (.send (sampleRecord (ascii "ViaCEP")))
        initSys [.reach1, .reach2, .recv1] =
      some
        { handler := .returned, apiCep := .done,
          viaCep := .sending (sampleRecord (ascii "ViaCEP")) } ∧
      (∀ acts s',
        runActions (.send (sampleRecord (ascii "ApiCep")))
            (.send (sampleRecord (ascii "ViaCEP")))
            { handler := .returned, apiCep := .done,
              viaCep := .sending (sampleRecord (ascii "ViaCEP")) } acts = some s' →
          s'.viaCep = .sending (sampleRecord (ascii "ViaCEP"))) ∧
      runActions (.send (sampleRecord (ascii "ApiCep"))) (.send (sampleRecord (ascii "ViaCEP")))
          initSys [.timeout, .reach1, .reach2] =
        some
          { handler := .returned, apiCep := .sending (sampleRecord (ascii "ApiCep")),
            viaCep := .sending (sampleRecord (ascii "ViaCEP")) } ∧
      ∀ acts s',
        runActions (.send (sampleRecord (ascii "ApiCep")))
            (.send (sampleRecord (ascii "ViaCEP")))
            { handler := .returned, apiCep := .sending (sampleRecord (ascii "ApiCep")),
              viaCep := .sending (sampleRecord (ascii "ViaCEP")) } acts = some s' →
          s'.apiCep = .sending (sampleRecord (ascii "ApiCep")) ∧
            s'.viaCep = .sending (sampleRecord (ascii "ViaCEP")) :=
  ⟨by decide, fun acts s' h => (after_return _ _ acts _ s' rfl h).2.2.2.2 _ rfl, by decide,
    fun acts s' h =>
      ⟨(after_return _ _ acts _ s' rfl h).2.2.2.1 _ rfl,
        (after_return _ _ acts _ s' rfl h).2.2.2.2 _ rfl⟩⟩

end CepRace
